import Mathlib

/-!
Shallow embedding of the role-based JWT auth demo (Django project
`jwt_auth_demo`): `user/models.py` (the `User` model with its `Role`
choices, the `Student`/`Teacher` proxy models, the profile models and
the `post_save` signal `create_profile_for_user`), `api/serializers.py`
(registration, login and profile serializers) and `api/views.py`
(registration views, login view, profile view).

The relational store is modelled as explicit lists of rows.  Python
exceptions (`IntegrityError`, re-raised as DRF `ValidationError`) are
modelled with `Except`; the error value carries the store state at the
moment the exception is raised, so that atomicity is a theorem rather
than a modelling assumption.
-/

namespace JwtAuthDemo

/-- `User.Role` text choices (user/models.py). -/
inductive Role where
  | ADMIN
  | STUDENT
  | TEACHER
deriving DecidableEq, Repr

/-- A persisted `User` row.  The `role` CharField is modelled as
`Option Role`: `none` stands for the empty string, `some r` for one of
the three choices.  `is_active` is the `AbstractUser` flag consulted by
the authentication backend. -/
structure UserRow where
  id : Nat
  username : String
  email : String
  passwordHash : String
  role : Option Role
  is_active : Bool
deriving DecidableEq, Repr

/-- A persisted `StudentProfile` row: one-to-one `user` reference and a
nullable integer `student_id` (user/models.py). -/
structure StudentProfileRow where
  id : Nat
  user : Nat
  student_id : Option Int
deriving DecidableEq, Repr

/-- A persisted `TeacherProfile` row (user/models.py). -/
structure TeacherProfileRow where
  id : Nat
  user : Nat
  teacher_id : Option Int
deriving DecidableEq, Repr

/-- The relational store: the three tables plus auto-increment
counters for primary keys. -/
structure DB where
  users : List UserRow
  studentProfiles : List StudentProfileRow
  teacherProfiles : List TeacherProfileRow
  nextUserId : Nat
  nextStudentProfileId : Nat
  nextTeacherProfileId : Nat
deriving DecidableEq, Repr

/-- The empty store. -/
def DB.empty : DB :=
  { users := [], studentProfiles := [], teacherProfiles := [],
    nextUserId := 1, nextStudentProfileId := 1, nextTeacherProfileId := 1 }

/-- Number of `StudentProfile` rows whose `user` reference is `uid`. -/
def studentCount (db : DB) (uid : Nat) : Nat :=
  db.studentProfiles.countP (fun p => p.user == uid)

/-- Number of `TeacherProfile` rows whose `user` reference is `uid`. -/
def teacherCount (db : DB) (uid : Nat) : Nat :=
  db.teacherProfiles.countP (fun p => p.user == uid)

/-- Number of `User` rows with the given username. -/
def usernameCount (db : DB) (un : String) : Nat :=
  db.users.countP (fun r => r.username == un)

/-- Number of `User` rows with the given email. -/
def emailCount (db : DB) (em : String) : Nat :=
  db.users.countP (fun r => r.email == em)

/-- `StudentProfile.objects.get_or_create(user=instance)`: fetch the
existing row if one exists for this user, otherwise insert a fresh one.
It cannot raise. -/
def getOrCreateStudentProfile (db : DB) (uid : Nat) : DB :=
  if ∃ p ∈ db.studentProfiles, p.user = uid then db
  else
    { db with
      studentProfiles := db.studentProfiles ++
        [{ id := db.nextStudentProfileId, user := uid, student_id := none }],
      nextStudentProfileId := db.nextStudentProfileId + 1 }

/-- `TeacherProfile.objects.get_or_create(user=instance)`. -/
def getOrCreateTeacherProfile (db : DB) (uid : Nat) : DB :=
  if ∃ p ∈ db.teacherProfiles, p.user = uid then db
  else
    { db with
      teacherProfiles := db.teacherProfiles ++
        [{ id := db.nextTeacherProfileId, user := uid, teacher_id := none }],
      nextTeacherProfileId := db.nextTeacherProfileId + 1 }

/-- The `post_save` signal receiver `create_profile_for_user`
(user/models.py lines 234-264): returns immediately unless a new row
was just created, then dispatches on the saved instance's role with
get-or-create semantics; any other role (ADMIN or blank) is a no-op. -/
def create_profile_for_user (db : DB) (ins : UserRow) (created : Bool) : DB :=
  if !created then db
  else if ins.role = some Role.STUDENT then
    getOrCreateStudentProfile db ins.id
  else if ins.role = some Role.TEACHER then
    getOrCreateTeacherProfile db ins.id
  else db

/-- An in-memory `User` model instance before/after saving.  `pk = none`
means the instance has not been inserted yet. -/
structure UserInstance where
  pk : Option Nat
  username : String
  email : String
  passwordHash : String
  role : Option Role
  is_active : Bool
deriving DecidableEq, Repr

/-- Building a `User` (or proxy) instance without passing `role`:
Django's `Model.__init__` fills every omitted field with its declared
default, so `role` starts out as the field default `Role.ADMIN` (the
`default=Role.ADMIN` on the CharField), and `is_active` as `True`. -/
def newUserInstance (username email passwordHash : String) : UserInstance :=
  { pk := none, username := username, email := email,
    passwordHash := passwordHash, role := some Role.ADMIN, is_active := true }

/-- `User.base_role` (user/models.py line 33). -/
def User.base_role : Role := Role.ADMIN

/-- `Student.base_role` (user/models.py line 152). -/
def Student.base_role : Role := Role.STUDENT

/-- `Teacher.base_role` (user/models.py line 175). -/
def Teacher.base_role : Role := Role.TEACHER

/-- The role pre-processing in `User.save` (user/models.py lines 45-46):
`if not self.pk: self.role = self.role or self._meta.model.base_role`.
A truthy (non-empty) `role` is kept; only a falsy one falls back to the
model class's `base_role`. -/
def userSaveRole (baseRole : Role) (u : UserInstance) : UserInstance :=
  match u.pk with
  | none => { u with role := u.role.orElse (fun _ => some baseRole) }
  | some _ => u

/-- SQL INSERT of a new `User` row.  `AbstractUser` puts a UNIQUE
constraint on `username` (and on nothing else the serializers touch:
`email` is not unique), so inserting a duplicate username raises
`IntegrityError`; the failed INSERT writes nothing. -/
def insertUser (db : DB) (u : UserInstance) : Except (DB × String) (DB × UserRow) :=
  if ∃ r ∈ db.users, r.username = u.username then
    .error (db, "IntegrityError")
  else
    .ok
      ({ db with
         users := db.users ++
           [{ id := db.nextUserId, username := u.username, email := u.email,
              passwordHash := u.passwordHash, role := u.role,
              is_active := u.is_active }],
         nextUserId := db.nextUserId + 1 },
       { id := db.nextUserId, username := u.username, email := u.email,
         passwordHash := u.passwordHash, role := u.role,
         is_active := u.is_active })

/-- SQL UPDATE of an existing `User` row identified by `id`. -/
def updateUser (db : DB) (u : UserInstance) (id : Nat) : DB × UserRow :=
  ({ db with
     users := db.users.map (fun r =>
       if r.id = id then
         { id := id, username := u.username, email := u.email,
           passwordHash := u.passwordHash, role := u.role,
           is_active := u.is_active }
       else r) },
   { id := id, username := u.username, email := u.email,
     passwordHash := u.passwordHash, role := u.role,
     is_active := u.is_active })

/-- `User.save` (user/models.py lines 35-47) followed by the `post_save`
signal: pre-process the role, INSERT (a fresh instance) or UPDATE (an
existing one), then fire `create_profile_for_user` with the matching
`created` flag. -/
def userSave (baseRole : Role) (db : DB) (u : UserInstance) :
    Except (DB × String) (DB × UserRow) :=
  match userSaveRole baseRole u with
  | u1 =>
    match u1.pk with
    | none =>
      match insertUser db u1 with
      | .error e => .error e
      | .ok (db1, row) => .ok (create_profile_for_user db1 row true, row)
    | some id =>
      match updateUser db u1 id with
      | (db1, row) => .ok (create_profile_for_user db1 row false, row)

/-- Django's standard password hashing routine (`make_password`),
an external collaborator of this repository; modelled as an injective
tagging function. -/
def make_password (raw : String) : String := "pbkdf2_sha256$" ++ raw

/-- `User.objects.create_user(username=..., email=..., password=...)`
as called by the registration serializers: builds an instance with the
field defaults (so `role = Role.ADMIN`, `is_active = True`), a hashed
password, and saves it through `User.save`. -/
def create_user (db : DB) (username email password : String) :
    Except (DB × String) (DB × UserRow) :=
  userSave User.base_role db (newUserInstance username email (make_password password))

/-- `StudentProfile.objects.create(user=user)`: a direct INSERT; the
one-to-one constraint on `user` raises `IntegrityError` if a row for
this user already exists. -/
def StudentProfile.create (db : DB) (uid : Nat) : Except (DB × String) DB :=
  if ∃ p ∈ db.studentProfiles, p.user = uid then .error (db, "IntegrityError")
  else
    .ok { db with
          studentProfiles := db.studentProfiles ++
            [{ id := db.nextStudentProfileId, user := uid, student_id := none }],
          nextStudentProfileId := db.nextStudentProfileId + 1 }

/-- `TeacherProfile.objects.create(user=user)`. -/
def TeacherProfile.create (db : DB) (uid : Nat) : Except (DB × String) DB :=
  if ∃ p ∈ db.teacherProfiles, p.user = uid then .error (db, "IntegrityError")
  else
    .ok { db with
          teacherProfiles := db.teacherProfiles ++
            [{ id := db.nextTeacherProfileId, user := uid, teacher_id := none }],
          nextTeacherProfileId := db.nextTeacherProfileId + 1 }

/-- `StudentRegisterSerializer.create` (api/serializers.py lines 51-78):
`User.objects.create_user(...)`, then `user.role = Role.STUDENT;
user.save()` (an UPDATE, so the signal sees `created=False`), then
`StudentProfile.objects.create(user=user)`. -/
def StudentRegisterSerializer.create (db : DB) (username email password : String) :
    Except (DB × String) (DB × UserRow) :=
  match create_user db username email password with
  | .error e => .error e
  | .ok (db1, row) =>
    match userSave User.base_role db1
        { pk := some row.id, username := row.username, email := row.email,
          passwordHash := row.passwordHash, role := some Role.STUDENT,
          is_active := row.is_active } with
    | .error e => .error e
    | .ok (db2, row2) =>
      match StudentProfile.create db2 row2.id with
      | .error e => .error e
      | .ok db3 => .ok (db3, row2)

/-- `TeacherRegisterSerializer.create` (api/serializers.py lines 96-108). -/
def TeacherRegisterSerializer.create (db : DB) (username email password : String) :
    Except (DB × String) (DB × UserRow) :=
  match create_user db username email password with
  | .error e => .error e
  | .ok (db1, row) =>
    match userSave User.base_role db1
        { pk := some row.id, username := row.username, email := row.email,
          passwordHash := row.passwordHash, role := some Role.TEACHER,
          is_active := row.is_active } with
    | .error e => .error e
    | .ok (db2, row2) =>
      match TeacherProfile.create db2 row2.id with
      | .error e => .error e
      | .ok db3 => .ok (db3, row2)

/-- A registration request body.  The serializers declare exactly the
fields `username`, `email`, `password`; any `role` value that may be
present in the body is not among the declared fields and is dropped by
validation. -/
structure RegInput where
  username : Option String
  email : Option String
  password : Option String
  role : Option String
deriving DecidableEq, Repr

/-- Django's `EmailValidator` (an external collaborator, run by the
generated `EmailField` on non-blank values): modelled as exactly one
"@" with non-empty text on both sides. -/
def email_format_ok (em : String) : Bool :=
  em.toList.count (Char.ofNat 64) == 1 &&
    !(em.toList.takeWhile (fun c => c != Char.ofNat 64)).isEmpty &&
    !((em.toList.dropWhile (fun c => c != Char.ofNat 64)).drop 1).isEmpty

/-- The errors the generated `username` field produces during
`is_valid`: the field is required and non-blank, and — because
`AbstractUser.username` carries `unique=True` — DRF auto-attaches a
`UniqueValidator` whose check runs against the store, with the model
field's own "unique" error message. -/
def usernameErrors (db : DB) (u? : Option String) : List (String × String) :=
  match u? with
  | none => [("username", "This field is required.")]
  | some u =>
    if u.isEmpty then [("username", "This field may not be blank.")]
    else if ∃ r ∈ db.users, r.username = u then
      [("username", "A user with that username already exists.")]
    else []

/-- The errors the generated `email` field produces: the model field
has `blank=True`, so the serializer field is `required=False,
allow_blank=True` — an absent or blank email is NOT a field error; a
non-blank value is format-checked. -/
def emailErrors (e? : Option String) : List (String × String) :=
  match e? with
  | none => []
  | some e =>
    if e.isEmpty then []
    else if email_format_ok e then []
    else [("email", "Enter a valid email address.")]

/-- The errors of the explicitly declared `password = CharField(
write_only=True)`: required and non-blank. -/
def passwordErrors (p? : Option String) : List (String × String) :=
  match p? with
  | none => [("password", "This field is required.")]
  | some p =>
    if p.isEmpty then [("password", "This field may not be blank.")] else []

/-- `serializer.is_valid`: the per-field error map collected over the
declared fields (`Meta.fields` order); any `role` value in the body is
not a declared field and contributes nothing. -/
def fieldErrors (db : DB) (input : RegInput) : List (String × String) :=
  usernameErrors db input.username ++ emailErrors input.email ++
    passwordErrors input.password

/-- The validated data the serializer's `create()` can actually consume:
`some (u, e, p)` when all three keys are present (with `username` and
`password` non-blank and `email` blank-or-well-formed).  `none` with an
empty `fieldErrors` map means `is_valid` passed but the optional `email`
key is absent from `validated_data`, so `validated_data["email"]` inside
`create()` raises `KeyError`. -/
def validateRegInput (input : RegInput) : Option (String × String × String) :=
  match input.username, input.email, input.password with
  | some u, some e, some p =>
    if u.isEmpty || p.isEmpty || (!e.isEmpty && !email_format_ok e) then none
    else some (u, e, p)
  | _, _, _ => none

/-- The body of a registration response. -/
inductive RegBody where
  | success (message username email : String)
  | fieldError (errors : List (String × String))
  | conflict (message : String)
  | serverError
deriving DecidableEq, Repr

/-- A registration response: HTTP status plus body. -/
structure RegResponse where
  status : Nat
  body : RegBody
deriving DecidableEq, Repr

/-- `StudentRegisterView.create`/`perform_create` (api/views.py lines
42-117): `serializer.is_valid(raise_exception=True)` runs the generated
field checks — including the `UniqueValidator` on `username` — and a
failure is a 400 carrying the per-field error map.  When validation
passes but the optional `email` key is absent, `validated_data["email"]`
inside the serializer's `create()` raises `KeyError`, which nothing
catches (only `IntegrityError` is), surfacing as a 500.  Otherwise the
serializer saves; an `IntegrityError` escaping the save (reachable only
when a concurrent INSERT wins between validation and save) is
translated into a 400 with the generic non-field conflict message, and
success answers 201 with the echoed non-sensitive fields.  The second
component is the store after the request. -/
def StudentRegisterView.create (db : DB) (input : RegInput) : RegResponse × DB :=
  match fieldErrors db input with
  | e :: es => ({ status := 400, body := RegBody.fieldError (e :: es) }, db)
  | [] =>
    match validateRegInput input with
    | none => ({ status := 500, body := RegBody.serverError }, db)
    | some (u, e, p) =>
      match StudentRegisterSerializer.create db u e p with
      | .error (dbe, _) =>
        ({ status := 400,
           body := RegBody.conflict "A user with this username or email already exists." },
         dbe)
      | .ok (db1, _) =>
        ({ status := 201, body := RegBody.success "Student registered successfully." u e },
         db1)

/-- `TeacherRegisterView.create`/`perform_create` (api/views.py lines
147-222): same pipeline as the student view. -/
def TeacherRegisterView.create (db : DB) (input : RegInput) : RegResponse × DB :=
  match fieldErrors db input with
  | e :: es => ({ status := 400, body := RegBody.fieldError (e :: es) }, db)
  | [] =>
    match validateRegInput input with
    | none => ({ status := 500, body := RegBody.serverError }, db)
    | some (u, e, p) =>
      match TeacherRegisterSerializer.create db u e p with
      | .error (dbe, _) =>
        ({ status := 400,
           body := RegBody.conflict "A user with this username or email already exists." },
         dbe)
      | .ok (db1, _) =>
        ({ status := 201, body := RegBody.success "Teacher registered successfully." u e },
         db1)

/-- The authentication backend consulted by the token serializer:
username lookup, password hash comparison, and the `is_active` check
behind simplejwt's `no_active_account` error. -/
def authenticate (db : DB) (username password : String) : Option UserRow :=
  match db.users.find? (fun r => r.username == username) with
  | none => none
  | some u =>
    if u.passwordHash == make_password password && u.is_active then some u else none

/-- The successful login payload assembled by `LoginSerializer.validate`
(api/serializers.py lines 166-174). -/
structure TokenPayload where
  refresh : String
  access : String
  user_id : Nat
  username : String
  email : String
  role : Option Role
deriving DecidableEq, Repr

/-- The external token issuer: refresh token for a user (opaque). -/
def mintRefresh (uid : Nat) : String := "refresh." ++ toString uid

/-- The external token issuer: access token for a user (opaque). -/
def mintAccess (uid : Nat) : String := "access." ++ toString uid

/-- `LoginSerializer.validate` (api/serializers.py lines 127-174): any
authentication failure — unknown username, wrong password, inactive
account — surfaces as the single configured `no_active_account` message
"Invalid username or password." (the serializer both overrides
`default_error_messages` and re-raises with that text); on success the
token pair is augmented with user id, username, email and role. -/
def LoginSerializer.validate (db : DB) (username password : String) :
    Except String TokenPayload :=
  match authenticate db username password with
  | none => .error "Invalid username or password."
  | some u =>
    .ok { refresh := mintRefresh u.id, access := mintAccess u.id,
          user_id := u.id, username := u.username, email := u.email,
          role := u.role }

/-- A login response: status, error detail (failure), payload and
top-level message (success). -/
structure LoginResponse where
  status : Nat
  detail : Option String
  payload : Option TokenPayload
  message : Option String
deriving DecidableEq, Repr

/-- `LoginView.post` (api/views.py lines 243-265): a serializer failure
becomes a 401 with the error detail; a success becomes a 200 carrying
the payload plus the top-level message "Login successful.".  The store
is read, never written. -/
def LoginView.post (db : DB) (username password : String) : LoginResponse :=
  match LoginSerializer.validate db username password with
  | .error msg =>
    { status := 401, detail := some msg, payload := none, message := none }
  | .ok t =>
    { status := 200, detail := none, payload := some t,
      message := some "Login successful." }

/-- The role-specific profile sub-object projected by the profile
serializer. -/
inductive ProfilePayload where
  | studentObj (student_id : Option Int)
  | teacherObj (teacher_id : Option Int)
deriving DecidableEq, Repr

/-- `ProfileSerializer.get_profile` (api/serializers.py lines 203-223):
branch on the user's role; look up the one-to-one profile row
(`getattr(obj, "studentprofile", None)`), project the role-specific
sub-object, and fall back to `None` when the row is absent or the role
is neither STUDENT nor TEACHER. -/
def ProfileSerializer.get_profile (db : DB) (obj : UserRow) : Option ProfilePayload :=
  if obj.role = some Role.STUDENT then
    match db.studentProfiles.find? (fun p => p.user == obj.id) with
    | some p => some (ProfilePayload.studentObj p.student_id)
    | none => none
  else if obj.role = some Role.TEACHER then
    match db.teacherProfiles.find? (fun p => p.user == obj.id) with
    | some p => some (ProfilePayload.teacherObj p.teacher_id)
    | none => none
  else none

/-- Creating a user through the `Student` proxy model by instantiating
and saving it (the `base_role` mechanism the proxies rely on): the
instance starts with the field default `role = Role.ADMIN`, and
`User.save` runs with `Student.base_role`. -/
def studentProxySave (db : DB) (username email passwordHash : String) :
    Except (DB × String) (DB × UserRow) :=
  userSave Student.base_role db (newUserInstance username email passwordHash)

/-- Creating a user through the `Teacher` proxy model by instantiating
and saving it. -/
def teacherProxySave (db : DB) (username email passwordHash : String) :
    Except (DB × String) (DB × UserRow) :=
  userSave Teacher.base_role db (newUserInstance username email passwordHash)

/-- Store well-formedness: primary keys below the auto-increment
counters, profile references below the user counter, and uniqueness of
user ids and usernames (the UNIQUE constraint). -/
def WF (db : DB) : Prop :=
  (∀ u ∈ db.users, u.id < db.nextUserId) ∧
  (∀ p ∈ db.studentProfiles, p.user < db.nextUserId) ∧
  (∀ p ∈ db.teacherProfiles, p.user < db.nextUserId) ∧
  (db.users.map (fun u => u.id)).Nodup ∧
  (db.users.map (fun u => u.username)).Nodup

instance (db : DB) : Decidable (WF db) := by
  unfold WF; exact inferInstance

/-- The role/profile invariant of §3 of the spec: a STUDENT user has
exactly one StudentProfile, a TEACHER user exactly one TeacherProfile,
and an ADMIN user no profile row of either kind. -/
def RoleProfileInv (db : DB) : Prop :=
  ∀ u ∈ db.users,
    (u.role = some Role.STUDENT → studentCount db u.id = 1) ∧
    (u.role = some Role.TEACHER → teacherCount db u.id = 1) ∧
    (u.role = some Role.ADMIN → studentCount db u.id = 0 ∧ teacherCount db u.id = 0)

instance (db : DB) : Decidable (RoleProfileInv db) := by
  unfold RoleProfileInv; exact inferInstance

/-- The row inserted by `User.objects.create_user` before the serializer
touches `role` again: field defaults (`role = ADMIN`, `is_active`),
hashed password. -/
def freshUserRow (db : DB) (un em pw : String) : UserRow :=
  { id := db.nextUserId, username := un, email := em,
    passwordHash := make_password pw, role := some Role.ADMIN,
    is_active := true }

/-- The same row after the registration serializer has set it to role `r`. -/
def regRow (db : DB) (un em pw : String) (r : Role) : UserRow :=
  { id := db.nextUserId, username := un, email := em,
    passwordHash := make_password pw, role := some r, is_active := true }

/-- Concrete fixture: the user row of a registered student "alice". -/
def aliceRow : UserRow :=
  { id := 1, username := "alice", email := "a@x.com",
    passwordHash := make_password "pw1", role := some Role.STUDENT,
    is_active := true }

/-- Concrete fixture: an ADMIN user row. -/
def adminRow : UserRow :=
  { id := 7, username := "root", email := "r@x.com",
    passwordHash := make_password "pw7", role := some Role.ADMIN,
    is_active := true }

/-- Concrete fixture: the store right after "alice" registered as a
student through the registration endpoint. -/
def dbAlice : DB :=
  { users := [aliceRow],
    studentProfiles := [{ id := 1, user := 1, student_id := none }],
    teacherProfiles := [],
    nextUserId := 2, nextStudentProfileId := 2, nextTeacherProfileId := 1 }

/-- Concrete fixture: the saved "alice" instance, its role switched to
ADMIN, about to be re-saved (a non-creating save). -/
def insAlice : UserInstance :=
  { pk := some 1, username := "alice", email := "a@x.com",
    passwordHash := make_password "pw1", role := some Role.ADMIN,
    is_active := true }

/-- Concrete fixture: a valid registration body for "carol". -/
def inputCarol : RegInput :=
  { username := some "carol", email := some "c@x.com",
    password := some "pw3", role := some "ADMIN" }

/-- Concrete fixture: a registration body re-using alice's email under a
fresh username. -/
def inputBob : RegInput :=
  { username := some "bob", email := some "a@x.com",
    password := some "pw2", role := none }

/-- Concrete fixture: a registration body re-using alice's username. -/
def inputAliceAgain : RegInput :=
  { username := some "alice", email := some "z@x.com",
    password := some "pw9", role := none }

/-! ### Helper lemmas about the store operations -/

theorem getOrCreate_student_mem (db : DB) (uid : Nat)
    (h : ∃ p ∈ db.studentProfiles, p.user = uid) :
    getOrCreateStudentProfile db uid = db := by
  simp only [getOrCreateStudentProfile, if_pos h]

theorem getOrCreate_student_not_mem (db : DB) (uid : Nat)
    (h : ¬ ∃ p ∈ db.studentProfiles, p.user = uid) :
    getOrCreateStudentProfile db uid =
      { db with
        studentProfiles := db.studentProfiles ++
          [{ id := db.nextStudentProfileId, user := uid, student_id := none }],
        nextStudentProfileId := db.nextStudentProfileId + 1 } := by
  simp only [getOrCreateStudentProfile, if_neg h]

theorem getOrCreate_teacher_mem (db : DB) (uid : Nat)
    (h : ∃ p ∈ db.teacherProfiles, p.user = uid) :
    getOrCreateTeacherProfile db uid = db := by
  simp only [getOrCreateTeacherProfile, if_pos h]

theorem getOrCreate_teacher_not_mem (db : DB) (uid : Nat)
    (h : ¬ ∃ p ∈ db.teacherProfiles, p.user = uid) :
    getOrCreateTeacherProfile db uid =
      { db with
        teacherProfiles := db.teacherProfiles ++
          [{ id := db.nextTeacherProfileId, user := uid, teacher_id := none }],
        nextTeacherProfileId := db.nextTeacherProfileId + 1 } := by
  simp only [getOrCreateTeacherProfile, if_neg h]

theorem getOrCreate_student_users (db : DB) (uid : Nat) :
    (getOrCreateStudentProfile db uid).users = db.users := by
  by_cases h : ∃ p ∈ db.studentProfiles, p.user = uid
  · rw [getOrCreate_student_mem db uid h]
  · rw [getOrCreate_student_not_mem db uid h]

theorem getOrCreate_student_teacherProfiles (db : DB) (uid : Nat) :
    (getOrCreateStudentProfile db uid).teacherProfiles = db.teacherProfiles := by
  by_cases h : ∃ p ∈ db.studentProfiles, p.user = uid
  · rw [getOrCreate_student_mem db uid h]
  · rw [getOrCreate_student_not_mem db uid h]

theorem getOrCreate_teacher_users (db : DB) (uid : Nat) :
    (getOrCreateTeacherProfile db uid).users = db.users := by
  by_cases h : ∃ p ∈ db.teacherProfiles, p.user = uid
  · rw [getOrCreate_teacher_mem db uid h]
  · rw [getOrCreate_teacher_not_mem db uid h]

theorem getOrCreate_teacher_studentProfiles (db : DB) (uid : Nat) :
    (getOrCreateTeacherProfile db uid).studentProfiles = db.studentProfiles := by
  by_cases h : ∃ p ∈ db.teacherProfiles, p.user = uid
  · rw [getOrCreate_teacher_mem db uid h]
  · rw [getOrCreate_teacher_not_mem db uid h]

theorem studentCount_getOrCreate (db : DB) (uid : Nat) :
    studentCount (getOrCreateStudentProfile db uid) uid =
      max (studentCount db uid) 1 := by
  by_cases h : ∃ p ∈ db.studentProfiles, p.user = uid
  · rw [getOrCreate_student_mem db uid h]
    have hpos : 0 < studentCount db uid := by
      rw [studentCount, List.countP_pos_iff]
      obtain ⟨p, hp, hpu⟩ := h
      exact ⟨p, hp, by simp [hpu]⟩
    omega
  · rw [getOrCreate_student_not_mem db uid h]
    have h0 : studentCount db uid = 0 := by
      rw [studentCount, List.countP_eq_zero]
      intro a ha
      simp only [beq_iff_eq]
      exact fun hc => h ⟨a, ha, hc⟩
    unfold studentCount at h0 ⊢
    rw [List.countP_append, h0]
    simp [List.countP_cons]

theorem teacherCount_getOrCreate (db : DB) (uid : Nat) :
    teacherCount (getOrCreateTeacherProfile db uid) uid =
      max (teacherCount db uid) 1 := by
  by_cases h : ∃ p ∈ db.teacherProfiles, p.user = uid
  · rw [getOrCreate_teacher_mem db uid h]
    have hpos : 0 < teacherCount db uid := by
      rw [teacherCount, List.countP_pos_iff]
      obtain ⟨p, hp, hpu⟩ := h
      exact ⟨p, hp, by simp [hpu]⟩
    omega
  · rw [getOrCreate_teacher_not_mem db uid h]
    have h0 : teacherCount db uid = 0 := by
      rw [teacherCount, List.countP_eq_zero]
      intro a ha
      simp only [beq_iff_eq]
      exact fun hc => h ⟨a, ha, hc⟩
    unfold teacherCount at h0 ⊢
    rw [List.countP_append, h0]
    simp [List.countP_cons]

theorem studentCount_getOrCreate_ne (db : DB) (uid v : Nat) (hne : v ≠ uid) :
    studentCount (getOrCreateStudentProfile db uid) v = studentCount db v := by
  by_cases h : ∃ p ∈ db.studentProfiles, p.user = uid
  · rw [getOrCreate_student_mem db uid h]
  · rw [getOrCreate_student_not_mem db uid h]
    unfold studentCount
    rw [List.countP_append]
    have hz : List.countP (fun p => p.user == v)
        [({ id := db.nextStudentProfileId, user := uid,
            student_id := none } : StudentProfileRow)] = 0 := by
      simp only [List.countP_cons, List.countP_nil, beq_iff_eq]
      rw [if_neg (fun hc => hne hc.symm)]
    rw [hz]
    omega

theorem teacherCount_getOrCreate_ne (db : DB) (uid v : Nat) (hne : v ≠ uid) :
    teacherCount (getOrCreateTeacherProfile db uid) v = teacherCount db v := by
  by_cases h : ∃ p ∈ db.teacherProfiles, p.user = uid
  · rw [getOrCreate_teacher_mem db uid h]
  · rw [getOrCreate_teacher_not_mem db uid h]
    unfold teacherCount
    rw [List.countP_append]
    have hz : List.countP (fun p => p.user == v)
        [({ id := db.nextTeacherProfileId, user := uid,
            teacher_id := none } : TeacherProfileRow)] = 0 := by
      simp only [List.countP_cons, List.countP_nil, beq_iff_eq]
      rw [if_neg (fun hc => hne hc.symm)]
    rw [hz]
    omega

theorem map_update_of_fresh (l : List UserRow) (uid : Nat) (row : UserRow)
    (h : ∀ r ∈ l, r.id ≠ uid) :
    l.map (fun r => if r.id = uid then row else r) = l := by
  induction l with
  | nil => rfl
  | cons a t ih =>
    simp only [List.map_cons]
    rw [if_neg (h a (List.mem_cons_self a t))]
    rw [ih (fun r hr => h r (List.mem_cons_of_mem a hr))]

theorem create_user_err (db : DB) (un em pw : String)
    (h : ∃ r ∈ db.users, r.username = un) :
    create_user db un em pw = .error (db, "IntegrityError") := by
  unfold create_user userSave userSaveRole newUserInstance insertUser
  simp only
  rw [if_pos h]

theorem create_user_ok (db : DB) (un em pw : String)
    (h : ¬ ∃ r ∈ db.users, r.username = un) :
    create_user db un em pw =
      .ok ({ db with
             users := db.users ++ [freshUserRow db un em pw],
             nextUserId := db.nextUserId + 1 },
           freshUserRow db un em pw) := by
  unfold create_user userSave userSaveRole newUserInstance insertUser
  simp only [Option.orElse]
  rw [if_neg h]
  simp only [create_profile_for_user, freshUserRow]
  simp

theorem userSave_some (baseRole : Role) (db : DB) (id : Nat)
    (un em ph : String) (r : Option Role) (ia : Bool) :
    userSave baseRole db
      { pk := some id, username := un, email := em,
        passwordHash := ph, role := r, is_active := ia } =
      .ok (updateUser db
        { pk := some id, username := un, email := em,
          passwordHash := ph, role := r, is_active := ia } id) := rfl

theorem studentSerializer_ok (db : DB) (un em pw : String)
    (hdup : ¬ ∃ r ∈ db.users, r.username = un)
    (hidU : ∀ r ∈ db.users, r.id ≠ db.nextUserId)
    (hidP : ¬ ∃ p ∈ db.studentProfiles, p.user = db.nextUserId) :
    StudentRegisterSerializer.create db un em pw =
      .ok ({ users := db.users ++ [regRow db un em pw Role.STUDENT],
             studentProfiles := db.studentProfiles ++
               [{ id := db.nextStudentProfileId, user := db.nextUserId,
                  student_id := none }],
             teacherProfiles := db.teacherProfiles,
             nextUserId := db.nextUserId + 1,
             nextStudentProfileId := db.nextStudentProfileId + 1,
             nextTeacherProfileId := db.nextTeacherProfileId },
           regRow db un em pw Role.STUDENT) := by
  have hmap : ∀ row : UserRow,
      db.users.map (fun r => if r.id = db.nextUserId then row else r) = db.users :=
    fun row => map_update_of_fresh db.users db.nextUserId row hidU
  unfold StudentRegisterSerializer.create
  rw [create_user_ok db un em pw hdup]
  simp [userSave_some, freshUserRow, updateUser, hmap, StudentProfile.create,
    hidP, regRow]

theorem teacherSerializer_ok (db : DB) (un em pw : String)
    (hdup : ¬ ∃ r ∈ db.users, r.username = un)
    (hidU : ∀ r ∈ db.users, r.id ≠ db.nextUserId)
    (hidP : ¬ ∃ p ∈ db.teacherProfiles, p.user = db.nextUserId) :
    TeacherRegisterSerializer.create db un em pw =
      .ok ({ users := db.users ++ [regRow db un em pw Role.TEACHER],
             studentProfiles := db.studentProfiles,
             teacherProfiles := db.teacherProfiles ++
               [{ id := db.nextTeacherProfileId, user := db.nextUserId,
                  teacher_id := none }],
             nextUserId := db.nextUserId + 1,
             nextStudentProfileId := db.nextStudentProfileId,
             nextTeacherProfileId := db.nextTeacherProfileId + 1 },
           regRow db un em pw Role.TEACHER) := by
  have hmap : ∀ row : UserRow,
      db.users.map (fun r => if r.id = db.nextUserId then row else r) = db.users :=
    fun row => map_update_of_fresh db.users db.nextUserId row hidU
  unfold TeacherRegisterSerializer.create
  rw [create_user_ok db un em pw hdup]
  simp [userSave_some, freshUserRow, updateUser, hmap, TeacherProfile.create,
    hidP, regRow]

theorem studentSerializer_dup (db : DB) (un em pw : String)
    (h : ∃ r ∈ db.users, r.username = un) :
    StudentRegisterSerializer.create db un em pw = .error (db, "IntegrityError") := by
  unfold StudentRegisterSerializer.create
  rw [create_user_err db un em pw h]

theorem teacherSerializer_dup (db : DB) (un em pw : String)
    (h : ∃ r ∈ db.users, r.username = un) :
    TeacherRegisterSerializer.create db un em pw = .error (db, "IntegrityError") := by
  unfold TeacherRegisterSerializer.create
  rw [create_user_err db un em pw h]

theorem countP_username_eq_one (l : List UserRow) (un : String)
    (hnd : (l.map (fun u => u.username)).Nodup)
    (h : ∃ r ∈ l, r.username = un) :
    l.countP (fun r => r.username == un) = 1 := by
  induction l with
  | nil => simp at h
  | cons a t ih =>
    rw [List.map_cons, List.nodup_cons] at hnd
    by_cases ha : a.username = un
    · have ht : t.countP (fun r => r.username == un) = 0 := by
        rw [List.countP_eq_zero]
        intro b hb
        simp only [beq_iff_eq]
        intro hbu
        exact hnd.1 (by
          rw [ha, ← hbu]
          exact List.mem_map_of_mem (fun u => u.username) hb)
      rw [List.countP_cons, ht]
      simp [ha]
    · obtain ⟨r, hr, hru⟩ := h
      rcases List.mem_cons.mp hr with hra | hrt
      · exact absurd (hra ▸ hru) ha
      · rw [List.countP_cons, ih hnd.2 ⟨r, hrt, hru⟩]
        simp [ha]


theorem getOrCreate_student_idem (db : DB) (uid : Nat) :
    getOrCreateStudentProfile (getOrCreateStudentProfile db uid) uid =
      getOrCreateStudentProfile db uid := by
  by_cases h : ∃ p ∈ db.studentProfiles, p.user = uid
  · rw [getOrCreate_student_mem db uid h, getOrCreate_student_mem db uid h]
  · rw [getOrCreate_student_not_mem db uid h]
    apply getOrCreate_student_mem
    exact ⟨{ id := db.nextStudentProfileId, user := uid, student_id := none },
      by simp, rfl⟩

theorem getOrCreate_teacher_idem (db : DB) (uid : Nat) :
    getOrCreateTeacherProfile (getOrCreateTeacherProfile db uid) uid =
      getOrCreateTeacherProfile db uid := by
  by_cases h : ∃ p ∈ db.teacherProfiles, p.user = uid
  · rw [getOrCreate_teacher_mem db uid h, getOrCreate_teacher_mem db uid h]
  · rw [getOrCreate_teacher_not_mem db uid h]
    apply getOrCreate_teacher_mem
    exact ⟨{ id := db.nextTeacherProfileId, user := uid, teacher_id := none },
      by simp, rfl⟩

theorem sync_false_eq (db : DB) (u : UserRow) :
    create_profile_for_user db u false = db := rfl

theorem sync_student_eq (db : DB) (u : UserRow) (h : u.role = some Role.STUDENT) :
    create_profile_for_user db u true = getOrCreateStudentProfile db u.id := by
  simp [create_profile_for_user, h]

theorem sync_teacher_eq (db : DB) (u : UserRow) (h : u.role = some Role.TEACHER) :
    create_profile_for_user db u true = getOrCreateTeacherProfile db u.id := by
  simp [create_profile_for_user, h]

theorem sync_other_eq (db : DB) (u : UserRow)
    (hs : u.role ≠ some Role.STUDENT) (ht : u.role ≠ some Role.TEACHER) :
    create_profile_for_user db u true = db := by
  simp [create_profile_for_user, hs, ht]

theorem sync_idem (db : DB) (u : UserRow) (c : Bool) :
    create_profile_for_user (create_profile_for_user db u c) u c =
      create_profile_for_user db u c := by
  cases c
  · rfl
  · by_cases hs : u.role = some Role.STUDENT
    · rw [sync_student_eq db u hs, sync_student_eq _ u hs,
        getOrCreate_student_idem]
    · by_cases ht : u.role = some Role.TEACHER
      · rw [sync_teacher_eq db u ht, sync_teacher_eq _ u ht,
          getOrCreate_teacher_idem]
      · rw [sync_other_eq db u hs ht, sync_other_eq db u hs ht]

theorem sync_studentCount_le (db : DB) (u : UserRow) (c : Bool)
    (h : studentCount db u.id ≤ 1) :
    studentCount (create_profile_for_user db u c) u.id ≤ 1 := by
  cases c
  · rw [sync_false_eq]; exact h
  · by_cases hs : u.role = some Role.STUDENT
    · rw [sync_student_eq db u hs, studentCount_getOrCreate]
      omega
    · by_cases ht : u.role = some Role.TEACHER
      · rw [sync_teacher_eq db u ht]
        unfold studentCount at h ⊢
        rw [getOrCreate_teacher_studentProfiles]
        exact h
      · rw [sync_other_eq db u hs ht]; exact h

theorem sync_teacherCount_le (db : DB) (u : UserRow) (c : Bool)
    (h : teacherCount db u.id ≤ 1) :
    teacherCount (create_profile_for_user db u c) u.id ≤ 1 := by
  cases c
  · rw [sync_false_eq]; exact h
  · by_cases hs : u.role = some Role.STUDENT
    · rw [sync_student_eq db u hs]
      unfold teacherCount at h ⊢
      rw [getOrCreate_student_teacherProfiles]
      exact h
    · by_cases ht : u.role = some Role.TEACHER
      · rw [sync_teacher_eq db u ht, teacherCount_getOrCreate]
        omega
      · rw [sync_other_eq db u hs ht]; exact h

theorem countP_student_zero_of_lt (l : List StudentProfileRow) (n : Nat)
    (h : ∀ p ∈ l, p.user < n) :
    l.countP (fun p => p.user == n) = 0 := by
  rw [List.countP_eq_zero]
  intro a ha
  simp only [beq_iff_eq]
  have := h a ha
  omega

theorem countP_teacher_zero_of_lt (l : List TeacherProfileRow) (n : Nat)
    (h : ∀ p ∈ l, p.user < n) :
    l.countP (fun p => p.user == n) = 0 := by
  rw [List.countP_eq_zero]
  intro a ha
  simp only [beq_iff_eq]
  have := h a ha
  omega

theorem email_ok_of_validate (em un pw : String)
    (hue : un.isEmpty = false) (hpe : pw.isEmpty = false)
    (hem : (un.isEmpty || pw.isEmpty ||
      (!em.isEmpty && !email_format_ok em)) = false) :
    em.isEmpty = true ∨ email_format_ok em = true := by
  cases h1 : em.isEmpty
  · cases h2 : email_format_ok em
    · rw [hue, hpe, h1, h2] at hem
      simp at hem
    · exact Or.inr rfl
  · exact Or.inl rfl

theorem validate_some_elim (input : RegInput) (un em pw : String)
    (hv : validateRegInput input = some (un, em, pw)) :
    input.username = some un ∧ input.email = some em ∧
    input.password = some pw ∧ un.isEmpty = false ∧ pw.isEmpty = false ∧
    (un.isEmpty || pw.isEmpty ||
      (!em.isEmpty && !email_format_ok em)) = false := by
  obtain ⟨uo, eo, po, ro⟩ := input
  cases uo with
  | none => exact absurd hv (by simp [validateRegInput])
  | some u =>
    cases eo with
    | none => exact absurd hv (by simp [validateRegInput])
    | some e =>
      cases po with
      | none => exact absurd hv (by simp [validateRegInput])
      | some p =>
        simp only [validateRegInput] at hv
        by_cases hc : (u.isEmpty || p.isEmpty ||
            (!e.isEmpty && !email_format_ok e)) = true
        · rw [if_pos hc] at hv
          exact absurd hv (by simp)
        · rw [if_neg hc] at hv
          injection hv with hv
          cases hv
          rw [Bool.not_eq_true] at hc
          refine ⟨rfl, rfl, rfl, ?_, ?_, hc⟩
          · cases hcu : un.isEmpty
            · rfl
            · rw [hcu] at hc
              simp at hc
          · cases hcp : pw.isEmpty
            · rfl
            · rw [hcp] at hc
              simp at hc

theorem fieldErrors_eq_nil (db : DB) (input : RegInput) (un em pw : String)
    (hv : validateRegInput input = some (un, em, pw))
    (hdup : ¬ ∃ r ∈ db.users, r.username = un) :
    fieldErrors db input = [] := by
  obtain ⟨hu, he, hp, hue, hpe, hem⟩ := validate_some_elim input un em pw hv
  have hem2 := email_ok_of_validate em un pw hue hpe hem
  unfold fieldErrors usernameErrors emailErrors passwordErrors
  rw [hu, he, hp]
  rcases hem2 with h1 | h1
  · simp [hue, hpe, hdup, h1]
  · simp [hue, hpe, hdup, h1]

theorem fieldErrors_dup (db : DB) (input : RegInput) (un em pw : String)
    (hv : validateRegInput input = some (un, em, pw))
    (hdup : ∃ r ∈ db.users, r.username = un) :
    fieldErrors db input =
      [("username", "A user with that username already exists.")] := by
  obtain ⟨hu, he, hp, hue, hpe, hem⟩ := validate_some_elim input un em pw hv
  have hem2 := email_ok_of_validate em un pw hue hpe hem
  unfold fieldErrors usernameErrors emailErrors passwordErrors
  rw [hu, he, hp]
  rcases hem2 with h1 | h1
  · simp [hue, hpe, hdup, h1]
  · simp [hue, hpe, hdup, h1]

theorem no_dup_of_fieldErrors_nil (db : DB) (input : RegInput)
    (un em pw : String)
    (hfe : fieldErrors db input = [])
    (hv : validateRegInput input = some (un, em, pw)) :
    ¬ ∃ r ∈ db.users, r.username = un := by
  intro hdup
  rw [fieldErrors_dup db input un em pw hv hdup] at hfe
  exact absurd hfe (by simp)

theorem studentView_field_errors (db : DB) (input : RegInput)
    (e : String × String) (es : List (String × String))
    (hfe : fieldErrors db input = e :: es) :
    StudentRegisterView.create db input =
      ({ status := 400, body := RegBody.fieldError (e :: es) }, db) := by
  unfold StudentRegisterView.create
  rw [hfe]

theorem teacherView_field_errors (db : DB) (input : RegInput)
    (e : String × String) (es : List (String × String))
    (hfe : fieldErrors db input = e :: es) :
    TeacherRegisterView.create db input =
      ({ status := 400, body := RegBody.fieldError (e :: es) }, db) := by
  unfold TeacherRegisterView.create
  rw [hfe]

theorem studentView_keyError (db : DB) (input : RegInput)
    (hfe : fieldErrors db input = [])
    (hv : validateRegInput input = none) :
    StudentRegisterView.create db input =
      ({ status := 500, body := RegBody.serverError }, db) := by
  unfold StudentRegisterView.create
  rw [hfe]
  simp [hv]

theorem teacherView_keyError (db : DB) (input : RegInput)
    (hfe : fieldErrors db input = [])
    (hv : validateRegInput input = none) :
    TeacherRegisterView.create db input =
      ({ status := 500, body := RegBody.serverError }, db) := by
  unfold TeacherRegisterView.create
  rw [hfe]
  simp [hv]

theorem studentView_dup (db : DB) (input : RegInput) (un em pw : String)
    (hv : validateRegInput input = some (un, em, pw))
    (hdup : ∃ r ∈ db.users, r.username = un) :
    StudentRegisterView.create db input =
      ({ status := 400,
         body := RegBody.fieldError
           [("username", "A user with that username already exists.")] },
       db) := by
  unfold StudentRegisterView.create
  rw [fieldErrors_dup db input un em pw hv hdup]

theorem teacherView_dup (db : DB) (input : RegInput) (un em pw : String)
    (hv : validateRegInput input = some (un, em, pw))
    (hdup : ∃ r ∈ db.users, r.username = un) :
    TeacherRegisterView.create db input =
      ({ status := 400,
         body := RegBody.fieldError
           [("username", "A user with that username already exists.")] },
       db) := by
  unfold TeacherRegisterView.create
  rw [fieldErrors_dup db input un em pw hv hdup]

theorem studentView_ok (db : DB) (input : RegInput) (un em pw : String)
    (hv : validateRegInput input = some (un, em, pw))
    (hdup : ¬ ∃ r ∈ db.users, r.username = un)
    (hidU : ∀ r ∈ db.users, r.id ≠ db.nextUserId)
    (hidP : ¬ ∃ p ∈ db.studentProfiles, p.user = db.nextUserId) :
    StudentRegisterView.create db input =
      ({ status := 201,
         body := RegBody.success "Student registered successfully." un em },
       { users := db.users ++ [regRow db un em pw Role.STUDENT],
         studentProfiles := db.studentProfiles ++
           [{ id := db.nextStudentProfileId, user := db.nextUserId,
              student_id := none }],
         teacherProfiles := db.teacherProfiles,
         nextUserId := db.nextUserId + 1,
         nextStudentProfileId := db.nextStudentProfileId + 1,
         nextTeacherProfileId := db.nextTeacherProfileId }) := by
  unfold StudentRegisterView.create
  rw [fieldErrors_eq_nil db input un em pw hv hdup]
  simp [hv, studentSerializer_ok db un em pw hdup hidU hidP]

theorem teacherView_ok (db : DB) (input : RegInput) (un em pw : String)
    (hv : validateRegInput input = some (un, em, pw))
    (hdup : ¬ ∃ r ∈ db.users, r.username = un)
    (hidU : ∀ r ∈ db.users, r.id ≠ db.nextUserId)
    (hidP : ¬ ∃ p ∈ db.teacherProfiles, p.user = db.nextUserId) :
    TeacherRegisterView.create db input =
      ({ status := 201,
         body := RegBody.success "Teacher registered successfully." un em },
       { users := db.users ++ [regRow db un em pw Role.TEACHER],
         studentProfiles := db.studentProfiles,
         teacherProfiles := db.teacherProfiles ++
           [{ id := db.nextTeacherProfileId, user := db.nextUserId,
              teacher_id := none }],
         nextUserId := db.nextUserId + 1,
         nextStudentProfileId := db.nextStudentProfileId,
         nextTeacherProfileId := db.nextTeacherProfileId + 1 }) := by
  unfold TeacherRegisterView.create
  rw [fieldErrors_eq_nil db input un em pw hv hdup]
  simp [hv, teacherSerializer_ok db un em pw hdup hidU hidP]

theorem WF_fresh_user (db : DB) (hwf : WF db) :
    ∀ r ∈ db.users, r.id ≠ db.nextUserId :=
  fun r hr => Nat.ne_of_lt (hwf.1 r hr)

theorem WF_fresh_studentProfile (db : DB) (hwf : WF db) :
    ¬ ∃ p ∈ db.studentProfiles, p.user = db.nextUserId := by
  rintro ⟨p, hp, he⟩
  have := hwf.2.1 p hp
  omega

theorem WF_fresh_teacherProfile (db : DB) (hwf : WF db) :
    ¬ ∃ p ∈ db.teacherProfiles, p.user = db.nextUserId := by
  rintro ⟨p, hp, he⟩
  have := hwf.2.2.1 p hp
  omega

theorem studentCount_mk (us : List UserRow) (sp : List StudentProfileRow)
    (tp : List TeacherProfileRow) (n1 n2 n3 v : Nat) :
    studentCount (DB.mk us sp tp n1 n2 n3) v =
      sp.countP (fun p => p.user == v) := rfl

theorem teacherCount_mk (us : List UserRow) (sp : List StudentProfileRow)
    (tp : List TeacherProfileRow) (n1 n2 n3 v : Nat) :
    teacherCount (DB.mk us sp tp n1 n2 n3) v =
      tp.countP (fun p => p.user == v) := rfl

theorem inv_after_student_reg (db : DB) (un em pw : String) (hwf : WF db)
    (hinv : RoleProfileInv db) :
    RoleProfileInv
      { users := db.users ++ [regRow db un em pw Role.STUDENT],
        studentProfiles := db.studentProfiles ++
          [{ id := db.nextStudentProfileId, user := db.nextUserId,
             student_id := none }],
        teacherProfiles := db.teacherProfiles,
        nextUserId := db.nextUserId + 1,
        nextStudentProfileId := db.nextStudentProfileId + 1,
        nextTeacherProfileId := db.nextTeacherProfileId } := by
  intro u hu
  rcases List.mem_append.mp hu with h | h
  · have hlt := hwf.1 u h
    have hz : List.countP (fun p => p.user == u.id)
        [({ id := db.nextStudentProfileId, user := db.nextUserId,
            student_id := none } : StudentProfileRow)] = 0 := by
      simp only [List.countP_cons, List.countP_nil, beq_iff_eq]
      rw [if_neg (by omega)]
    obtain ⟨i1, i2, i3⟩ := hinv u h
    refine ⟨fun hr => ?_, fun hr => ?_, fun hr => ?_⟩
    · rw [studentCount_mk, List.countP_append, hz]
      have := i1 hr
      unfold studentCount at this
      omega
    · rw [teacherCount_mk]
      have := i2 hr
      unfold teacherCount at this
      exact this
    · constructor
      · rw [studentCount_mk, List.countP_append, hz]
        have := (i3 hr).1
        unfold studentCount at this
        omega
      · rw [teacherCount_mk]
        have := (i3 hr).2
        unfold teacherCount at this
        exact this
  · rw [List.mem_singleton.mp h]
    refine ⟨fun _ => ?_, fun hr => ?_, fun hr => ?_⟩
    · rw [studentCount_mk, List.countP_append]
      simp only [regRow]
      rw [countP_student_zero_of_lt db.studentProfiles db.nextUserId hwf.2.1]
      simp [List.countP_cons]
    · simp [regRow] at hr
    · simp [regRow] at hr

theorem inv_after_teacher_reg (db : DB) (un em pw : String) (hwf : WF db)
    (hinv : RoleProfileInv db) :
    RoleProfileInv
      { users := db.users ++ [regRow db un em pw Role.TEACHER],
        studentProfiles := db.studentProfiles,
        teacherProfiles := db.teacherProfiles ++
          [{ id := db.nextTeacherProfileId, user := db.nextUserId,
             teacher_id := none }],
        nextUserId := db.nextUserId + 1,
        nextStudentProfileId := db.nextStudentProfileId,
        nextTeacherProfileId := db.nextTeacherProfileId + 1 } := by
  intro u hu
  rcases List.mem_append.mp hu with h | h
  · have hlt := hwf.1 u h
    have hz : List.countP (fun p => p.user == u.id)
        [({ id := db.nextTeacherProfileId, user := db.nextUserId,
            teacher_id := none } : TeacherProfileRow)] = 0 := by
      simp only [List.countP_cons, List.countP_nil, beq_iff_eq]
      rw [if_neg (by omega)]
    obtain ⟨i1, i2, i3⟩ := hinv u h
    refine ⟨fun hr => ?_, fun hr => ?_, fun hr => ?_⟩
    · rw [studentCount_mk]
      have := i1 hr
      unfold studentCount at this
      exact this
    · rw [teacherCount_mk, List.countP_append, hz]
      have := i2 hr
      unfold teacherCount at this
      omega
    · constructor
      · rw [studentCount_mk]
        have := (i3 hr).1
        unfold studentCount at this
        exact this
      · rw [teacherCount_mk, List.countP_append, hz]
        have := (i3 hr).2
        unfold teacherCount at this
        omega
  · rw [List.mem_singleton.mp h]
    refine ⟨fun hr => ?_, fun _ => ?_, fun hr => ?_⟩
    · simp [regRow] at hr
    · rw [teacherCount_mk, List.countP_append]
      simp only [regRow]
      rw [countP_teacher_zero_of_lt db.teacherProfiles db.nextUserId hwf.2.2.1]
      simp [List.countP_cons]
    · simp [regRow] at hr


/-! ### Claim theorems -/

/-- C3: for a newly created User (a `post_save` event with
`created = true`) the profile-sync signal dispatches on the role the
user has at the creation event: role STUDENT gets-or-creates a
`StudentProfile` for that user (leaving users and teacher profiles
untouched), role TEACHER likewise a `TeacherProfile`, and role ADMIN
(or a blank role) creates no profile record at all. -/
theorem C3_sync_dispatch_on_role (db : DB) (u : UserRow) :
    (u.role = some Role.STUDENT →
       create_profile_for_user db u true = getOrCreateStudentProfile db u.id ∧
       studentCount (create_profile_for_user db u true) u.id =
         max (studentCount db u.id) 1 ∧
       (create_profile_for_user db u true).teacherProfiles =
         db.teacherProfiles ∧
       (create_profile_for_user db u true).users = db.users) ∧
    (u.role = some Role.TEACHER →
       create_profile_for_user db u true = getOrCreateTeacherProfile db u.id ∧
       teacherCount (create_profile_for_user db u true) u.id =
         max (teacherCount db u.id) 1 ∧
       (create_profile_for_user db u true).studentProfiles =
         db.studentProfiles ∧
       (create_profile_for_user db u true).users = db.users) ∧
    (u.role = some Role.ADMIN → create_profile_for_user db u true = db) ∧
    (u.role = none → create_profile_for_user db u true = db) := by
  refine ⟨fun h => ?_, fun h => ?_, fun h => ?_, fun h => ?_⟩
  · rw [sync_student_eq db u h]
    exact ⟨rfl, studentCount_getOrCreate db u.id,
      getOrCreate_student_teacherProfiles db u.id,
      getOrCreate_student_users db u.id⟩
  · rw [sync_teacher_eq db u h]
    exact ⟨rfl, teacherCount_getOrCreate db u.id,
      getOrCreate_teacher_studentProfiles db u.id,
      getOrCreate_teacher_users db u.id⟩
  · exact sync_other_eq db u (by rw [h]; decide) (by rw [h]; decide)
  · exact sync_other_eq db u (by rw [h]; decide) (by rw [h]; decide)

/-- C3 witness at the concrete fixture: running the signal at creation
for the student row "alice". -/
theorem C3_sync_dispatch_on_role_witness :
    create_profile_for_user dbAlice aliceRow true =
      getOrCreateStudentProfile dbAlice aliceRow.id ∧
    studentCount (create_profile_for_user dbAlice aliceRow true) aliceRow.id =
      max (studentCount dbAlice aliceRow.id) 1 ∧
    (create_profile_for_user dbAlice aliceRow true).teacherProfiles =
      dbAlice.teacherProfiles ∧
    (create_profile_for_user dbAlice aliceRow true).users = dbAlice.users :=
  (C3_sync_dispatch_on_role dbAlice aliceRow).1 rfl

/-- C4: the profile-sync signal is idempotent: running it twice equals
running it once, running it `n + 1` times equals running it once, it is
a total function (it cannot raise: get-or-create semantics), and under
the one-to-one store constraint (at most one profile per user before)
repeated invocation leaves at most one profile record for the user. -/
theorem C4_sync_idempotent (db : DB) (u : UserRow) (c : Bool) (n : Nat) :
    create_profile_for_user (create_profile_for_user db u c) u c =
      create_profile_for_user db u c ∧
    (fun d => create_profile_for_user d u c)^[n + 1] db =
      create_profile_for_user db u c ∧
    (studentCount db u.id ≤ 1 ∧ teacherCount db u.id ≤ 1 →
       studentCount ((fun d => create_profile_for_user d u c)^[n] db) u.id ≤ 1 ∧
       teacherCount ((fun d => create_profile_for_user d u c)^[n] db) u.id ≤ 1) := by
  refine ⟨sync_idem db u c, ?_, ?_⟩
  · induction n with
    | zero => rfl
    | succ m ih =>
      rw [Function.iterate_succ_apply']
      rw [ih]
      exact sync_idem db u c
  · intro hc
    induction n with
    | zero => exact hc
    | succ m ih =>
      rw [Function.iterate_succ_apply']
      exact ⟨sync_studentCount_le _ u c ih.1, sync_teacherCount_le _ u c ih.2⟩

/-- C4 witness at the concrete fixture: three invocations on the
registered student "alice" equal one, and no duplicate appears. -/
theorem C4_sync_idempotent_witness :
    (studentCount dbAlice aliceRow.id ≤ 1 ∧
     teacherCount dbAlice aliceRow.id ≤ 1) ∧
    studentCount
      ((fun d => create_profile_for_user d aliceRow true)^[2] dbAlice)
      aliceRow.id ≤ 1 ∧
    teacherCount
      ((fun d => create_profile_for_user d aliceRow true)^[2] dbAlice)
      aliceRow.id ≤ 1 ∧
    (fun d => create_profile_for_user d aliceRow true)^[2 + 1] dbAlice =
      create_profile_for_user dbAlice aliceRow true :=
  ⟨⟨by decide, by decide⟩,
   ((C4_sync_idempotent dbAlice aliceRow true 2).2.2 ⟨by decide, by decide⟩).1,
   ((C4_sync_idempotent dbAlice aliceRow true 2).2.2 ⟨by decide, by decide⟩).2,
   (C4_sync_idempotent dbAlice aliceRow true 2).2.1⟩

/-- C10: a save of an already-persisted User — the signal fires with
`created = false`, e.g. after any post-creation role change — neither
creates, deletes nor modifies any StudentProfile or TeacherProfile row:
the signal returns immediately, and the UPDATE touches only the user
table.  Stated both for the bare signal and for a full `User.save` on an
instance holding a primary key. -/
theorem C10_noncreating_save_frame (db : DB) (u : UserRow) (baseRole : Role)
    (ins : UserInstance) (id : Nat) (h : ins.pk = some id) :
    create_profile_for_user db u false = db ∧
    ∃ db2 row, userSave baseRole db ins = .ok (db2, row) ∧
      db2.studentProfiles = db.studentProfiles ∧
      db2.teacherProfiles = db.teacherProfiles := by
  refine ⟨rfl, ?_⟩
  obtain ⟨pk, a, b, c, d, e⟩ := ins
  simp only at h
  subst h
  exact ⟨_, _, rfl, rfl, rfl⟩

/-- C10 witness: re-saving "alice" with her role switched to ADMIN
leaves both profile tables unchanged. -/
theorem C10_noncreating_save_frame_witness :
    create_profile_for_user dbAlice aliceRow false = dbAlice ∧
    ∃ db2 row, userSave Role.ADMIN dbAlice insAlice = .ok (db2, row) ∧
      db2.studentProfiles = dbAlice.studentProfiles ∧
      db2.teacherProfiles = dbAlice.teacherProfiles :=
  C10_noncreating_save_frame dbAlice aliceRow Role.ADMIN insAlice 1 rfl


/-- C1: every failed login attempt — unknown username or wrong password —
produces the same 401 response with the single generic error detail
"Invalid username or password.", so the two failure causes cannot be
told apart from the response. -/
theorem C1_login_failure_single_message (db : DB) (un pw : String) :
    (db.users.find? (fun r => r.username == un) = none →
       LoginView.post db un pw =
         { status := 401, detail := some "Invalid username or password.",
           payload := none, message := none }) ∧
    (∀ u, db.users.find? (fun r => r.username == un) = some u →
       u.passwordHash ≠ make_password pw →
       LoginView.post db un pw =
         { status := 401, detail := some "Invalid username or password.",
           payload := none, message := none }) := by
  constructor
  · intro h
    simp [LoginView.post, LoginSerializer.validate, authenticate, h]
  · intro u hu hpw
    have hb : (u.passwordHash == make_password pw) = false := by
      rw [beq_eq_false_iff_ne]
      exact hpw
    simp [LoginView.post, LoginSerializer.validate, authenticate, hu, hb]

/-- C1 witness: against the fixture store, an unknown username and a
wrong password for "alice" return the identical 401 response. -/
theorem C1_login_failure_single_message_witness :
    dbAlice.users.find? (fun r => r.username == "nobody") = none ∧
    LoginView.post dbAlice "nobody" "pw1" =
      { status := 401, detail := some "Invalid username or password.",
        payload := none, message := none } ∧
    dbAlice.users.find? (fun r => r.username == "alice") = some aliceRow ∧
    aliceRow.passwordHash ≠ make_password "bad" ∧
    LoginView.post dbAlice "alice" "bad" =
      { status := 401, detail := some "Invalid username or password.",
        payload := none, message := none } :=
  ⟨by decide,
   (C1_login_failure_single_message dbAlice "nobody" "pw1").1 (by decide),
   by decide, by decide,
   (C1_login_failure_single_message dbAlice "alice" "bad").2 aliceRow
     (by decide) (by decide)⟩

/-- C8: the profile serializer branches on the authenticated user's
role: a STUDENT with a profile row gets `{student_id: ...}`, a TEACHER
with a profile row gets `{teacher_id: ...}`; an ADMIN (or blank role),
and a STUDENT or TEACHER whose profile row is absent, get `none` (JSON
null) — the lookup is total and never fails. -/
theorem C8_profile_projection (db : DB) (u : UserRow) :
    (∀ p, u.role = some Role.STUDENT →
       db.studentProfiles.find? (fun q => q.user == u.id) = some p →
       ProfileSerializer.get_profile db u =
         some (ProfilePayload.studentObj p.student_id)) ∧
    (u.role = some Role.STUDENT →
       db.studentProfiles.find? (fun q => q.user == u.id) = none →
       ProfileSerializer.get_profile db u = none) ∧
    (∀ p, u.role = some Role.TEACHER →
       db.teacherProfiles.find? (fun q => q.user == u.id) = some p →
       ProfileSerializer.get_profile db u =
         some (ProfilePayload.teacherObj p.teacher_id)) ∧
    (u.role = some Role.TEACHER →
       db.teacherProfiles.find? (fun q => q.user == u.id) = none →
       ProfileSerializer.get_profile db u = none) ∧
    (u.role = some Role.ADMIN → ProfileSerializer.get_profile db u = none) ∧
    (u.role = none → ProfileSerializer.get_profile db u = none) := by
  refine ⟨fun p h hf => ?_, fun h hf => ?_, fun p h hf => ?_, fun h hf => ?_,
    fun h => ?_, fun h => ?_⟩
  · simp [ProfileSerializer.get_profile, h, hf]
  · simp [ProfileSerializer.get_profile, h, hf]
  · simp [ProfileSerializer.get_profile, h, hf]
  · simp [ProfileSerializer.get_profile, h, hf]
  · simp [ProfileSerializer.get_profile, h]
  · simp [ProfileSerializer.get_profile, h]

/-- C8 witness: the student "alice" projects to `{student_id: null}`;
an ADMIN user projects to null. -/
theorem C8_profile_projection_witness :
    dbAlice.studentProfiles.find? (fun q => q.user == aliceRow.id) =
      some { id := 1, user := 1, student_id := none } ∧
    ProfileSerializer.get_profile dbAlice aliceRow =
      some (ProfilePayload.studentObj none) ∧
    ProfileSerializer.get_profile dbAlice adminRow = none :=
  ⟨by decide,
   (C8_profile_projection dbAlice aliceRow).1
     { id := 1, user := 1, student_id := none } rfl (by decide),
   (C8_profile_projection dbAlice adminRow).2.2.2.2.1 rfl⟩


/-- C5: for every valid registration input (the three declared fields
present; any `role` value in the body is not a declared field and is
dropped by validation) with a fresh username, the Student
(resp. Teacher) registration handler persists a user whose role is
STUDENT (resp. TEACHER) regardless of the input, whose stored password
is exactly the hash produced by the store's standard hashing routine,
and whose matching profile row exists (count one) when the handler
completes. -/
theorem C5_registration_role_hash_profile (db : DB) (input : RegInput)
    (un em pw : String) (hwf : WF db)
    (hv : validateRegInput input = some (un, em, pw))
    (hdup : ¬ ∃ r ∈ db.users, r.username = un) :
    (∃ dbS, StudentRegisterView.create db input =
        ({ status := 201,
           body := RegBody.success "Student registered successfully." un em },
         dbS) ∧
       regRow db un em pw Role.STUDENT ∈ dbS.users ∧
       (regRow db un em pw Role.STUDENT).role = some Role.STUDENT ∧
       (regRow db un em pw Role.STUDENT).passwordHash = make_password pw ∧
       studentCount dbS db.nextUserId = 1) ∧
    (∃ dbT, TeacherRegisterView.create db input =
        ({ status := 201,
           body := RegBody.success "Teacher registered successfully." un em },
         dbT) ∧
       regRow db un em pw Role.TEACHER ∈ dbT.users ∧
       (regRow db un em pw Role.TEACHER).role = some Role.TEACHER ∧
       (regRow db un em pw Role.TEACHER).passwordHash = make_password pw ∧
       teacherCount dbT db.nextUserId = 1) := by
  have hidU := WF_fresh_user db hwf
  have hidPs := WF_fresh_studentProfile db hwf
  have hidPt := WF_fresh_teacherProfile db hwf
  constructor
  · refine ⟨_, studentView_ok db input un em pw hv hdup hidU hidPs, ?_, rfl,
      rfl, ?_⟩
    · simp
    · rw [studentCount_mk, List.countP_append,
        countP_student_zero_of_lt db.studentProfiles db.nextUserId hwf.2.1]
      simp [List.countP_cons]
  · refine ⟨_, teacherView_ok db input un em pw hv hdup hidU hidPt, ?_, rfl,
      rfl, ?_⟩
    · simp
    · rw [teacherCount_mk, List.countP_append,
        countP_teacher_zero_of_lt db.teacherProfiles db.nextUserId hwf.2.2.1]
      simp [List.countP_cons]

/-- C5 witness: registering "carol" (whose body even carries
role = "ADMIN") against the fixture store. -/
theorem C5_registration_role_hash_profile_witness :
    (∃ dbS, StudentRegisterView.create dbAlice inputCarol =
        ({ status := 201,
           body := RegBody.success "Student registered successfully."
             "carol" "c@x.com" }, dbS) ∧
       regRow dbAlice "carol" "c@x.com" "pw3" Role.STUDENT ∈ dbS.users ∧
       (regRow dbAlice "carol" "c@x.com" "pw3" Role.STUDENT).role =
         some Role.STUDENT ∧
       (regRow dbAlice "carol" "c@x.com" "pw3" Role.STUDENT).passwordHash =
         make_password "pw3" ∧
       studentCount dbS dbAlice.nextUserId = 1) ∧
    (∃ dbT, TeacherRegisterView.create dbAlice inputCarol =
        ({ status := 201,
           body := RegBody.success "Teacher registered successfully."
             "carol" "c@x.com" }, dbT) ∧
       regRow dbAlice "carol" "c@x.com" "pw3" Role.TEACHER ∈ dbT.users ∧
       (regRow dbAlice "carol" "c@x.com" "pw3" Role.TEACHER).role =
         some Role.TEACHER ∧
       (regRow dbAlice "carol" "c@x.com" "pw3" Role.TEACHER).passwordHash =
         make_password "pw3" ∧
       teacherCount dbT dbAlice.nextUserId = 1) :=
  C5_registration_role_hash_profile dbAlice inputCarol "carol" "c@x.com" "pw3"
    (by decide) (by decide) (by decide)

/-- C6 (amended): a registration attempt whose USERNAME duplicates an
existing User is rejected during `serializer.is_valid` by the
`UniqueValidator` DRF attaches to the generated `username` field: both
handlers answer 400 whose body is the PER-FIELD error map on `username`
— not the generic non-field conflict message, whose `IntegrityError`
translation is reachable only when a concurrent INSERT wins between
validation and save — the store is unchanged, and exactly one User row
with that username exists afterward.  (A duplicate email alone is never
detected: that registration succeeds — see the counterexample.) -/
theorem C6_duplicate_username_field_error (db : DB) (input : RegInput)
    (un em pw : String) (hwf : WF db)
    (hv : validateRegInput input = some (un, em, pw))
    (hdup : ∃ r ∈ db.users, r.username = un) :
    StudentRegisterView.create db input =
      ({ status := 400,
         body := RegBody.fieldError
           [("username", "A user with that username already exists.")] },
       db) ∧
    TeacherRegisterView.create db input =
      ({ status := 400,
         body := RegBody.fieldError
           [("username", "A user with that username already exists.")] },
       db) ∧
    usernameCount db un = 1 :=
  ⟨studentView_dup db input un em pw hv hdup,
   teacherView_dup db input un em pw hv hdup,
   countP_username_eq_one db.users un hwf.2.2.2.2 hdup⟩

/-- C6 witness: registering the username "alice" a second time. -/
theorem C6_duplicate_username_field_error_witness :
    StudentRegisterView.create dbAlice inputAliceAgain =
      ({ status := 400,
         body := RegBody.fieldError
           [("username", "A user with that username already exists.")] },
       dbAlice) ∧
    TeacherRegisterView.create dbAlice inputAliceAgain =
      ({ status := 400,
         body := RegBody.fieldError
           [("username", "A user with that username already exists.")] },
       dbAlice) ∧
    usernameCount dbAlice "alice" = 1 :=
  C6_duplicate_username_field_error dbAlice inputAliceAgain "alice" "z@x.com"
    "pw9" (by decide) (by decide) (by decide)

/-- C6 counterexample to the claim as stated, at concrete inputs:
(a) duplicate EMAIL — "alice" holds "a@x.com", and registering "bob"
with the same email is not answered with any 400 conflict: it succeeds
with 201 and afterwards two User rows share that email (the store has
no uniqueness constraint on email); (b) duplicate USERNAME —
re-registering "alice" does get a 400, but its body is the per-field
UniqueValidator error, not the generic non-field conflict message the
claim requires. -/
theorem C6_counterexample_conflict_message :
    emailCount dbAlice "a@x.com" = 1 ∧
    (StudentRegisterView.create dbAlice inputBob).1.status = 201 ∧
    (StudentRegisterView.create dbAlice inputBob).1.body ≠
      RegBody.conflict "A user with this username or email already exists." ∧
    usernameCount (StudentRegisterView.create dbAlice inputBob).2 "bob" = 1 ∧
    emailCount (StudentRegisterView.create dbAlice inputBob).2 "a@x.com" = 2 ∧
    (StudentRegisterView.create dbAlice inputAliceAgain).1.body =
      RegBody.fieldError
        [("username", "A user with that username already exists.")] ∧
    (StudentRegisterView.create dbAlice inputAliceAgain).1.body ≠
      RegBody.conflict "A user with this username or email already exists." := by
  decide

/-- C7: registration is atomic.  On a 201 both stores grow by exactly
one row (one User, one matching profile; the other profile table is
untouched); on every non-201 outcome — field validation failure or
uniqueness conflict — the store is exactly the pre-request store. -/
theorem C7_registration_atomicity (db : DB) (input : RegInput) (hwf : WF db) :
    (∀ resp db1, StudentRegisterView.create db input = (resp, db1) →
       (resp.status = 201 →
          (∃ row, db1.users = db.users ++ [row]) ∧
          (∃ prof, db1.studentProfiles = db.studentProfiles ++ [prof]) ∧
          db1.teacherProfiles = db.teacherProfiles) ∧
       (resp.status ≠ 201 → db1 = db)) ∧
    (∀ resp db1, TeacherRegisterView.create db input = (resp, db1) →
       (resp.status = 201 →
          (∃ row, db1.users = db.users ++ [row]) ∧
          (∃ prof, db1.teacherProfiles = db.teacherProfiles ++ [prof]) ∧
          db1.studentProfiles = db.studentProfiles) ∧
       (resp.status ≠ 201 → db1 = db)) := by
  have hidU := WF_fresh_user db hwf
  have hidPs := WF_fresh_studentProfile db hwf
  have hidPt := WF_fresh_teacherProfile db hwf
  constructor
  · intro resp db1 heq
    cases hfe : fieldErrors db input with
    | cons e es =>
      rw [studentView_field_errors db input e es hfe] at heq
      injection heq with h1 h2
      subst h2
      refine ⟨fun hs => ?_, fun _ => rfl⟩
      rw [← h1] at hs
      simp at hs
    | nil =>
      cases hv0 : validateRegInput input with
      | none =>
        rw [studentView_keyError db input hfe hv0] at heq
        injection heq with h1 h2
        subst h2
        refine ⟨fun hs => ?_, fun _ => rfl⟩
        rw [← h1] at hs
        simp at hs
      | some t =>
        obtain ⟨un, em, pw⟩ := t
        have hdup := no_dup_of_fieldErrors_nil db input un em pw hfe hv0
        rw [studentView_ok db input un em pw hv0 hdup hidU hidPs] at heq
        injection heq with h1 h2
        subst h2
        refine ⟨fun _ => ⟨⟨_, rfl⟩, ⟨_, rfl⟩, rfl⟩, fun hs => ?_⟩
        rw [← h1] at hs
        simp at hs
  · intro resp db1 heq
    cases hfe : fieldErrors db input with
    | cons e es =>
      rw [teacherView_field_errors db input e es hfe] at heq
      injection heq with h1 h2
      subst h2
      refine ⟨fun hs => ?_, fun _ => rfl⟩
      rw [← h1] at hs
      simp at hs
    | nil =>
      cases hv0 : validateRegInput input with
      | none =>
        rw [teacherView_keyError db input hfe hv0] at heq
        injection heq with h1 h2
        subst h2
        refine ⟨fun hs => ?_, fun _ => rfl⟩
        rw [← h1] at hs
        simp at hs
      | some t =>
        obtain ⟨un, em, pw⟩ := t
        have hdup := no_dup_of_fieldErrors_nil db input un em pw hfe hv0
        rw [teacherView_ok db input un em pw hv0 hdup hidU hidPt] at heq
        injection heq with h1 h2
        subst h2
        refine ⟨fun _ => ⟨⟨_, rfl⟩, ⟨_, rfl⟩, rfl⟩, fun hs => ?_⟩
        rw [← h1] at hs
        simp at hs

/-- C7 witness: the success case on a fresh registration of "carol" and
the zero-effect case on the conflicting re-registration of "alice". -/
theorem C7_registration_atomicity_witness :
    ((∃ row, (StudentRegisterView.create dbAlice inputCarol).2.users =
        dbAlice.users ++ [row]) ∧
     (∃ prof, (StudentRegisterView.create dbAlice inputCarol).2.studentProfiles =
        dbAlice.studentProfiles ++ [prof]) ∧
     (StudentRegisterView.create dbAlice inputCarol).2.teacherProfiles =
       dbAlice.teacherProfiles) ∧
    (StudentRegisterView.create dbAlice inputAliceAgain).2 = dbAlice :=
  ⟨((C7_registration_atomicity dbAlice inputCarol (by decide)).1 _ _ rfl).1
     (by decide),
   ((C7_registration_atomicity dbAlice inputAliceAgain (by decide)).1 _ _ rfl).2
     (by decide)⟩

/-- C2: the role/profile invariant — STUDENT users have exactly one
StudentProfile, TEACHER users exactly one TeacherProfile, ADMIN users
no profile row of either kind — is preserved by every in-scope
operation: both registration handlers, any run of the profile-sync
signal on a stored user, and (last conjunct) login and profile
retrieval, which read the store without writing (their embeddings take
`db` and return no store, so the state after them is `db` itself). -/
theorem C2_role_profile_invariant (db : DB) (input : RegInput) (u : UserRow)
    (c : Bool) (hwf : WF db) (hinv : RoleProfileInv db) (hu : u ∈ db.users) :
    RoleProfileInv (StudentRegisterView.create db input).2 ∧
    RoleProfileInv (TeacherRegisterView.create db input).2 ∧
    RoleProfileInv (create_profile_for_user db u c) ∧
    RoleProfileInv db := by
  have hidU := WF_fresh_user db hwf
  have hidPs := WF_fresh_studentProfile db hwf
  have hidPt := WF_fresh_teacherProfile db hwf
  refine ⟨?_, ?_, ?_, hinv⟩
  · cases hfe : fieldErrors db input with
    | cons e es =>
      rw [studentView_field_errors db input e es hfe]
      exact hinv
    | nil =>
      cases hv0 : validateRegInput input with
      | none =>
        rw [studentView_keyError db input hfe hv0]
        exact hinv
      | some t =>
        obtain ⟨un, em, pw⟩ := t
        have hdup := no_dup_of_fieldErrors_nil db input un em pw hfe hv0
        rw [studentView_ok db input un em pw hv0 hdup hidU hidPs]
        exact inv_after_student_reg db un em pw hwf hinv
  · cases hfe : fieldErrors db input with
    | cons e es =>
      rw [teacherView_field_errors db input e es hfe]
      exact hinv
    | nil =>
      cases hv0 : validateRegInput input with
      | none =>
        rw [teacherView_keyError db input hfe hv0]
        exact hinv
      | some t =>
        obtain ⟨un, em, pw⟩ := t
        have hdup := no_dup_of_fieldErrors_nil db input un em pw hfe hv0
        rw [teacherView_ok db input un em pw hv0 hdup hidU hidPt]
        exact inv_after_teacher_reg db un em pw hwf hinv
  · cases c with
    | false => exact hinv
    | true =>
      by_cases hs : u.role = some Role.STUDENT
      · have h1 := (hinv u hu).1 hs
        have hex : ∃ p ∈ db.studentProfiles, p.user = u.id := by
          have hpos : 0 < studentCount db u.id := by omega
          unfold studentCount at hpos
          rw [List.countP_pos_iff] at hpos
          obtain ⟨p, hp, hb⟩ := hpos
          exact ⟨p, hp, by simpa using hb⟩
        rw [sync_student_eq db u hs, getOrCreate_student_mem db u.id hex]
        exact hinv
      · by_cases ht : u.role = some Role.TEACHER
        · have h2 := (hinv u hu).2.1 ht
          have hex : ∃ p ∈ db.teacherProfiles, p.user = u.id := by
            have hpos : 0 < teacherCount db u.id := by omega
            unfold teacherCount at hpos
            rw [List.countP_pos_iff] at hpos
            obtain ⟨p, hp, hb⟩ := hpos
            exact ⟨p, hp, by simpa using hb⟩
          rw [sync_teacher_eq db u ht, getOrCreate_teacher_mem db u.id hex]
          exact hinv
        · rw [sync_other_eq db u hs ht]
          exact hinv

/-- C2 witness at the concrete fixture store. -/
theorem C2_role_profile_invariant_witness :
    RoleProfileInv (StudentRegisterView.create dbAlice inputCarol).2 ∧
    RoleProfileInv (TeacherRegisterView.create dbAlice inputCarol).2 ∧
    RoleProfileInv (create_profile_for_user dbAlice aliceRow true) ∧
    RoleProfileInv dbAlice :=
  C2_role_profile_invariant dbAlice inputCarol aliceRow true (by decide)
    (by decide) (by decide)

/-- C9: evaluation at the failing input.  A user created through the
Student (resp. Teacher) proxy model by instantiating and saving it
without an explicitly supplied role is persisted with role ADMIN, not
STUDENT (resp. TEACHER): Django fills the CharField default ADMIN at
construction time, so `self.role or base_role` in `User.save` sees a
truthy ADMIN and the proxy's `base_role` never applies. -/
theorem C9_proxy_base_role_ineffective :
    ∃ dbS rowS dbT rowT,
      studentProxySave DB.empty "carol" "c@x.com" (make_password "pw") =
        .ok (dbS, rowS) ∧
      rowS ∈ dbS.users ∧
      rowS.role = some Role.ADMIN ∧ rowS.role ≠ some Role.STUDENT ∧
      teacherProxySave DB.empty "dave" "d@x.com" (make_password "pw") =
        .ok (dbT, rowT) ∧
      rowT ∈ dbT.users ∧
      rowT.role = some Role.ADMIN ∧ rowT.role ≠ some Role.TEACHER := by
  refine ⟨_, _, _, _, rfl, by decide, rfl, by decide, rfl, by decide, rfl,
    by decide⟩

end JwtAuthDemo
